import Mathlib

/-!
Verification of the Prediction Service of the Drop-Out Prediction and
Counseling System (`src/app.py`).

The embedding models the two Flask endpoints `/predict` and `/predict_batch`
as pure Lean functions.  The trained scikit-learn model is opaque: it is
modelled as a `Classifier` record carrying its ordered class-label list
(`model.classes_`) and two fallible capabilities (`model.predict` and
`model.predict_proba` on a single-row frame).  Python floats are modelled
as exact rationals (`Rat`); Python exceptions are modelled with
`Except String`; a Python `dict` (insertion-ordered, value-overwriting)
is modelled as an association list with `dictInsert`.
-/

namespace DropApp

/-- A scalar feature value.  Validation and the claims only depend on key
presence, never on the value, so a single scalar type suffices. -/
abbrev Val := Int

/-- A JSON object sent by the caller: a mapping from keys to scalar values
(a Python `dict`, so keys are unique; we model it as an association list). -/
abbrev Record := List (String × Val)

/-- The single-row input handed to the classifier (the pandas `DataFrame`
built from `input_data`): classifier-facing column names paired with
the record's values. -/
abbrev ModelInput := List (String × Val)

/-- `FEATURE_MAPPING` from `src/app.py` lines 43-75: the 31 required input
feature keys and their classifier-facing column names, in source order. -/
def FEATURE_MAPPING : List (String × String) := [
  ("marital_status", "Marital status"),
  ("application_mode", "Application mode"),
  ("course", "Course"),
  ("daytime_evening_attendance", "Daytime/evening attendance"),
  ("previous_qualification", "Previous qualification"),
  ("nationality", "Nacionality"),
  ("mother_qualification", "Mother\x27s qualification"),
  ("father_qualification", "Father\x27s qualification"),
  ("mother_occupation", "Mother\x27s occupation"),
  ("father_occupation", "Father\x27s occupation"),
  ("displaced", "Displaced"),
  ("educational_special_needs", "Educational special needs"),
  ("debtor", "Debtor"),
  ("tuition_fees_up_to_date", "Tuition fees up to date"),
  ("gender", "Gender"),
  ("scholarship_holder", "Scholarship holder"),
  ("age_at_enrollment", "Age at enrollment"),
  ("international", "International"),
  ("curricular_units_1st_sem_credited", "Curricular units 1st sem (credited)"),
  ("curricular_units_1st_sem_enrolled", "Curricular units 1st sem (enrolled)"),
  ("curricular_units_1st_sem_evaluations", "Curricular units 1st sem (evaluations)"),
  ("curricular_units_1st_sem_approved", "Curricular units 1st sem (approved)"),
  ("curricular_units_1st_sem_grade", "Curricular units 1st sem (grade)"),
  ("curricular_units_2nd_sem_credited", "Curricular units 2nd sem (credited)"),
  ("curricular_units_2nd_sem_enrolled", "Curricular units 2nd sem (enrolled)"),
  ("curricular_units_2nd_sem_evaluations", "Curricular units 2nd sem (evaluations)"),
  ("curricular_units_2nd_sem_approved", "Curricular units 2nd sem (approved)"),
  ("curricular_units_2nd_sem_grade", "Curricular units 2nd sem (grade)"),
  ("unemployment_rate", "Unemployment rate"),
  ("inflation_rate", "Inflation rate"),
  ("gdp", "GDP")
]

/-- The 31 required feature keys, in source order (`FEATURE_MAPPING.keys()`). -/
def requiredFeatures : List String := FEATURE_MAPPING.map Prod.fst

/-- Python `feature in data` (dict key membership). -/
def hasKey (data : Record) (k : String) : Bool :=
  data.any (fun p => p.1 == k)

/-- Python `data[feature]`.  Every call site is reached only after
validation established that `feature` is a key of `data`, so the
`getD` default is unreachable there. -/
def getKey (data : Record) (k : String) : Val :=
  ((data.find? (fun p => p.1 == k)).map Prod.snd).getD 0

/-- The `missing_features` accumulation loop of `src/app.py` lines 204-207
(and its verbatim copy at lines 289-292): the required keys absent
from the input record, in required-key order. -/
def missingOf (data : Record) : List String :=
  requiredFeatures.filter (fun f => ! hasKey data f)

/-- Python `repr` of a list of strings, as interpolated by
`f"Missing required features: {missing_features}"`. -/
def formatFeatureList (xs : List String) : String :=
  "[" ++ String.intercalate ", " (xs.map (fun s => "\x27" ++ s ++ "\x27")) ++ "]"

/-- The `input_data` / `DataFrame` construction of `src/app.py` lines
216-220 (and its copy at lines 303-307): each feature renamed to its
classifier-facing column name, in `FEATURE_MAPPING` order. -/
def toModelInput (data : Record) : ModelInput :=
  FEATURE_MAPPING.map (fun p => (p.2, getKey data p.1))

/-- The opaque trained classifier (`random_forest_model.pkl` once loaded):
its ordered class-label list `classes_` (already stringified), and its
two fallible inference capabilities.  An `Except.error` models a Python
exception raised by the call; the carried string is the exception text. -/
structure Classifier where
  classes : List String
  predictFn : ModelInput → Except String String
  predictProbaFn : ModelInput → Except String (List Rat)

/-- Python dict assignment `d[k] = v`: overwrite in place if the key is
present (keeping its position), otherwise append. -/
def dictInsert (d : List (String × Rat)) (k : String) (v : Rat) : List (String × Rat) :=
  if d.any (fun p => p.1 == k) then d.map (fun p => if p.1 == k then (k, v) else p)
  else d ++ [(k, v)]

/-- The probabilities-dict loop of `src/app.py` lines 228-230 (and its copy
at lines 315-317): `for i, class_name in enumerate(classes):
probabilities[str(class_name)] = float(prediction_proba[0][i])`.
Consuming the vector head-first visits exactly `prediction_proba[0][i]`
at step `i`; when the label list outruns the vector the Python indexing
raises `IndexError`, modelled by the error branch. -/
def buildProbs : List String → List Rat → List (String × Rat) → Except String (List (String × Rat))
  | [], _, acc => Except.ok acc
  | _ :: _, [], _ => Except.error "list index out of range"
  | c :: cs, p :: ps, acc => buildProbs cs ps (dictInsert acc c p)

/-- Python `max(...)` over a sequence of floats: `ValueError` when empty. -/
def listMax : List Rat → Except String Rat
  | [] => Except.error "max() arg is an empty sequence"
  | x :: xs => Except.ok (xs.foldl (fun a b => max a b) x)

/-- The success payload of a single prediction (`src/app.py` lines 246-252,
minus the constant `"status": "success"` tag that the constructor of
`PredictResponse` encodes). -/
structure PredictSuccess where
  prediction : String
  probabilities : List (String × Rat)
  risk_level : String
  confidence : Rat
deriving DecidableEq

/-- The JSON body answered by `/predict`: a success payload, or an error
message with the `"status": "error"` tag. -/
inductive PredictResponse where
  | ok : PredictSuccess → PredictResponse
  | err : String → PredictResponse
deriving DecidableEq

/-- The body of `/predict` after its model and input-presence guards:
`src/app.py` lines 203-258.  Validation, frame construction, the two
model calls, the probabilities dict, the risk-tier derivation and the
confidence; any exception falls to the `except` handler of line 254,
which wraps the exception text in `"Prediction failed: "`. -/
def predictCore (clf : Classifier) (data : Record) : PredictResponse :=
  if missingOf data = [] then
    match clf.predictFn (toModelInput data) with
    | Except.error e => PredictResponse.err ("Prediction failed: " ++ e)
    | Except.ok pred0 =>
      match clf.predictProbaFn (toModelInput data) with
      | Except.error e => PredictResponse.err ("Prediction failed: " ++ e)
      | Except.ok proba =>
        match buildProbs clf.classes proba [] with
        | Except.error e => PredictResponse.err ("Prediction failed: " ++ e)
        | Except.ok probabilities =>
          let dropout_prob : Rat := (List.lookup "Dropout" probabilities).getD 0
          let risk_level : String :=
            if pred0 = "Dropout" then
              if dropout_prob > mkRat 7 10 then "High"
              else if dropout_prob > mkRat 2 5 then "Medium"
              else "Low"
            else
              if dropout_prob > mkRat 3 10 then "Medium"
              else "Low"
          match listMax proba with
          | Except.error e => PredictResponse.err ("Prediction failed: " ++ e)
          | Except.ok conf =>
            PredictResponse.ok
              { prediction := pred0
                probabilities := probabilities
                risk_level := risk_level
                confidence := conf }
  else
    PredictResponse.err ("Missing required features: " ++ formatFeatureList (missingOf data))

/-- The `/predict` endpoint, `src/app.py` lines 185-258.  `model` is `none`
when `load_model()` failed at startup; `body` is `none` when
`request.get_json()` yields no object, and Python's `if not data:`
also routes the empty object to the same error. -/
def predict (model : Option Classifier) (body : Option Record) : PredictResponse :=
  match model with
  | none => PredictResponse.err "Model not loaded"
  | some clf =>
    match body with
    | none => PredictResponse.err "No input data provided"
    | some data =>
      if data = [] then PredictResponse.err "No input data provided"
      else predictCore clf data

/-- One element of the `results` list of `/predict_batch`: a success entry
(`index` plus the single-prediction fields, lines 333-340) or a failure
entry (`index`, error message, lines 295-299 and 343-347). -/
inductive BatchEntry where
  | success : Nat → PredictSuccess → BatchEntry
  | failure : Nat → String → BatchEntry
deriving DecidableEq

/-- The `index` field every batch entry carries. -/
def entryIndex : BatchEntry → Nat
  | BatchEntry.success i _ => i
  | BatchEntry.failure i _ => i

/-- `r.get("status") == "success"` on a batch entry. -/
def isSuccessEntry : BatchEntry → Bool
  | BatchEntry.success _ _ => true
  | BatchEntry.failure _ _ => false

/-- `r.get("status") == "error"` on a batch entry. -/
def isErrorEntry : BatchEntry → Bool
  | BatchEntry.success _ _ => false
  | BatchEntry.failure _ _ => true

/-- The body of one iteration of the `/predict_batch` loop,
`src/app.py` lines 287-347: the per-record `try` block duplicating the
single-path validation, frame construction, model calls, probabilities
dict, risk-tier derivation and confidence, with the per-record `except`
handler of line 342 turning any exception into a failure entry. -/
def batchEntry (clf : Classifier) (i : Nat) (student_data : Record) : BatchEntry :=
  if missingOf student_data = [] then
    match clf.predictFn (toModelInput student_data) with
    | Except.error e => BatchEntry.failure i ("Prediction failed: " ++ e)
    | Except.ok pred0 =>
      match clf.predictProbaFn (toModelInput student_data) with
      | Except.error e => BatchEntry.failure i ("Prediction failed: " ++ e)
      | Except.ok proba =>
        match buildProbs clf.classes proba [] with
        | Except.error e => BatchEntry.failure i ("Prediction failed: " ++ e)
        | Except.ok probabilities =>
          let dropout_prob : Rat := (List.lookup "Dropout" probabilities).getD 0
          let risk_level : String :=
            if pred0 = "Dropout" then
              if dropout_prob > mkRat 7 10 then "High"
              else if dropout_prob > mkRat 2 5 then "Medium"
              else "Low"
            else
              if dropout_prob > mkRat 3 10 then "Medium"
              else "Low"
          match listMax proba with
          | Except.error e => BatchEntry.failure i ("Prediction failed: " ++ e)
          | Except.ok conf =>
            BatchEntry.success i
              { prediction := pred0
                probabilities := probabilities
                risk_level := risk_level
                confidence := conf }
  else
    BatchEntry.failure i ("Missing required features: " ++ formatFeatureList (missingOf student_data))

/-- The `for i, student_data in enumerate(students)` loop of
`src/app.py` line 286, accumulating one entry per record. -/
def batchLoopAux (clf : Classifier) : Nat → List Record → List BatchEntry
  | _, [] => []
  | i, s :: rest => batchEntry clf i s :: batchLoopAux clf (i + 1) rest

/-- The aggregate body answered by `/predict_batch` on the happy path,
`src/app.py` lines 349-355 (minus the constant outer `"status"` tag). -/
structure BatchOut where
  results : List BatchEntry
  total_processed : Nat
  successful : Nat
  failed : Nat
deriving DecidableEq

/-- The JSON body answered by `/predict_batch`. -/
inductive BatchResponse where
  | ok : BatchOut → BatchResponse
  | err : String → BatchResponse
deriving DecidableEq

/-- The shape of a `/predict_batch` request body, as the guards of
`src/app.py` lines 270-283 discriminate it: no JSON object, a falsy
object or one without a `"students"` key (`absent`); a `"students"`
value that is not a list (`notList`); or a list of records. -/
inductive BatchBody where
  | absent : BatchBody
  | notList : BatchBody
  | students : List Record → BatchBody

/-- The `/predict_batch` endpoint, `src/app.py` lines 260-361. -/
def predict_batch (model : Option Classifier) (body : BatchBody) : BatchResponse :=
  match model with
  | none => BatchResponse.err "Model not loaded"
  | some clf =>
    match body with
    | BatchBody.absent => BatchResponse.err "No students data provided"
    | BatchBody.notList => BatchResponse.err "Students data must be a list"
    | BatchBody.students students =>
      let results := batchLoopAux clf 0 students
      BatchResponse.ok
        { results := results
          total_processed := students.length
          successful := (results.filter (fun r => isSuccessEntry r)).length
          failed := (results.filter (fun r => isErrorEntry r)).length }

/-! ### Concrete witness material -/

/-- A concrete well-behaved classifier: two distinct classes, a "Dropout"
prediction with dropout probability 3/4. -/
def wClf : Classifier :=
  { classes := ["Dropout", "Graduate"]
    predictFn := fun _ => Except.ok "Dropout"
    predictProbaFn := fun _ => Except.ok [mkRat 3 4, mkRat 1 4] }

/-- A concrete record carrying all 31 required feature keys. -/
def wRec : Record := requiredFeatures.map (fun k => (k, (0 : Val)))

/-- The result `predictCore wClf wRec` evaluates to. -/
def wRes : PredictSuccess :=
  { prediction := "Dropout"
    probabilities := [("Dropout", mkRat 3 4), ("Graduate", mkRat 1 4)]
    risk_level := "High"
    confidence := mkRat 3 4 }

/-! ### Helper lemmas about the batch loop -/

/-- The loop appends exactly one entry per record. -/
theorem batchLoopAux_length (clf : Classifier) (k : Nat) (rs : List Record) :
    (batchLoopAux clf k rs).length = rs.length := by
  induction rs generalizing k with
  | nil => rfl
  | cons s rest ih => simp [batchLoopAux, ih]

/-- The `i`-th entry of the loop started at counter `k` is the entry the
loop body produces for the `i`-th record at index `k + i`. -/
theorem batchLoopAux_get (clf : Classifier) (rs : List Record) (k i : Nat)
    (h1 : i < rs.length) (h2 : i < (batchLoopAux clf k rs).length) :
    (batchLoopAux clf k rs).get ⟨i, h2⟩ = batchEntry clf (k + i) (rs.get ⟨i, h1⟩) := by
  induction rs generalizing k i with
  | nil => simp at h1
  | cons s rest ih =>
    cases i with
    | zero => rfl
    | succ n =>
      have h1n : n < rest.length := Nat.lt_of_succ_lt_succ h1
      have h2n : n < (batchLoopAux clf (k + 1) rest).length := by
        rw [batchLoopAux_length]; exact h1n
      show (batchLoopAux clf (k + 1) rest).get ⟨n, h2n⟩ =
        batchEntry clf (k + (n + 1)) ((s :: rest).get ⟨n + 1, h1⟩)
      rw [ih (k + 1) n h1n h2n]
      congr 1
      omega

/-- Every entry the loop body produces carries the index it was given. -/
theorem entryIndex_batchEntry (clf : Classifier) (i : Nat) (r : Record) :
    entryIndex (batchEntry clf i r) = i := by
  by_cases hm : missingOf r = []
  · cases hp : clf.predictFn (toModelInput r) with
    | error e => simp [batchEntry, entryIndex, hm, hp]
    | ok pred0 =>
      cases hq : clf.predictProbaFn (toModelInput r) with
      | error e => simp [batchEntry, entryIndex, hm, hp, hq]
      | ok proba =>
        cases hb : buildProbs clf.classes proba [] with
        | error e => simp [batchEntry, entryIndex, hm, hp, hq, hb]
        | ok probs =>
          cases hx : listMax proba with
          | error e => simp [batchEntry, entryIndex, hm, hp, hq, hb, hx]
          | ok conf => simp [batchEntry, entryIndex, hm, hp, hq, hb, hx]
  · simp [batchEntry, entryIndex, hm]

/-- Every batch entry is tagged success or error, and the two filter counts
partition the result list. -/
theorem filter_counts_partition (l : List BatchEntry) :
    (l.filter (fun r => isSuccessEntry r)).length +
      (l.filter (fun r => isErrorEntry r)).length = l.length := by
  induction l with
  | nil => rfl
  | cons e rest ih =>
    cases e with
    | success i s =>
      have h1 : ((BatchEntry.success i s :: rest).filter (fun r => isSuccessEntry r)) =
          BatchEntry.success i s :: (rest.filter (fun r => isSuccessEntry r)) := rfl
      have h2 : ((BatchEntry.success i s :: rest).filter (fun r => isErrorEntry r)) =
          rest.filter (fun r => isErrorEntry r) := rfl
      rw [h1, h2]
      simp only [List.length_cons]
      omega
    | failure i m =>
      have h1 : ((BatchEntry.failure i m :: rest).filter (fun r => isSuccessEntry r)) =
          rest.filter (fun r => isSuccessEntry r) := rfl
      have h2 : ((BatchEntry.failure i m :: rest).filter (fun r => isErrorEntry r)) =
          BatchEntry.failure i m :: (rest.filter (fun r => isErrorEntry r)) := rfl
      rw [h1, h2]
      simp only [List.length_cons]
      omega

/-! ### Claims -/

/-- Claim C1: for every successful single-record prediction, the risk tier
is derived from `class_probabilities["Dropout"]` (taken as 0 when that
class is absent) by the fixed asymmetric policy: if the predicted label
is "Dropout", the tier is "High" when the dropout probability exceeds
0.7, "Medium" when it exceeds 0.4 (and is at most 0.7), otherwise "Low";
for any other predicted label, "Medium" when it exceeds 0.3, otherwise
"Low". -/
theorem risk_tier_policy (clf : Classifier) (data : Record) (s : PredictSuccess)
    (h : predictCore clf data = PredictResponse.ok s) :
    s.risk_level =
      (if s.prediction = "Dropout" then
        if (List.lookup "Dropout" s.probabilities).getD 0 > mkRat 7 10 then "High"
        else if (List.lookup "Dropout" s.probabilities).getD 0 > mkRat 2 5 then "Medium"
        else "Low"
      else
        if (List.lookup "Dropout" s.probabilities).getD 0 > mkRat 3 10 then "Medium"
        else "Low") := by
  obtain ⟨spred, sprobs, srisk, sconf⟩ := s
  by_cases hm : missingOf data = []
  · cases hp : clf.predictFn (toModelInput data) with
    | error e => simp [predictCore, hm, hp] at h
    | ok pred0 =>
      cases hq : clf.predictProbaFn (toModelInput data) with
      | error e => simp [predictCore, hm, hp, hq] at h
      | ok proba =>
        cases hb : buildProbs clf.classes proba [] with
        | error e => simp [predictCore, hm, hp, hq, hb] at h
        | ok probabilities =>
          cases hx : listMax proba with
          | error e => simp [predictCore, hm, hp, hq, hb, hx] at h
          | ok conf =>
            simp only [predictCore, hm, if_true, hp, hq, hb, hx,
              PredictResponse.ok.injEq, PredictSuccess.mk.injEq] at h
            obtain ⟨h1, h2, h3, h4⟩ := h
            subst h1; subst h2; subst h4
            simp only [← h3]
  · simp [predictCore, hm] at h

/-- Witness for C1 at the concrete classifier `wClf` and record `wRec`. -/
theorem risk_tier_policy_witness :
    wRes.risk_level =
      (if wRes.prediction = "Dropout" then
        if (List.lookup "Dropout" wRes.probabilities).getD 0 > mkRat 7 10 then "High"
        else if (List.lookup "Dropout" wRes.probabilities).getD 0 > mkRat 2 5 then "Medium"
        else "Low"
      else
        if (List.lookup "Dropout" wRes.probabilities).getD 0 > mkRat 3 10 then "Medium"
        else "Low") :=
  risk_tier_policy wClf wRec wRes (by decide)

/-- Claim C6: when the classifier failed to load at startup, every single
and every batch prediction request fails with the model-unavailable
error, whatever the request body holds — validation is never reached. -/
theorem model_unavailable_fast_fail :
    (∀ body : Option Record, predict none body = PredictResponse.err "Model not loaded") ∧
    (∀ body : BatchBody, predict_batch none body = BatchResponse.err "Model not loaded") :=
  ⟨fun _ => rfl, fun _ => rfl⟩

/-- Claim C10: a single-prediction request with an absent or empty body
gets the generic "No input data provided" error, never the missing-key
enumeration; an empty record inside a batch list, by contrast, gets the
failure entry enumerating all 31 required keys. -/
theorem empty_input_handling (clf : Classifier) :
    predict (some clf) none = PredictResponse.err "No input data provided" ∧
    predict (some clf) (some []) = PredictResponse.err "No input data provided" ∧
    predict (some clf) (some []) ≠
      PredictResponse.err ("Missing required features: " ++ formatFeatureList (missingOf [])) ∧
    (∀ i, batchEntry clf i [] =
      BatchEntry.failure i ("Missing required features: " ++ formatFeatureList requiredFeatures)) ∧
    predict_batch (some clf) (BatchBody.students [[]]) =
      BatchResponse.ok
        { results := [BatchEntry.failure 0
            ("Missing required features: " ++ formatFeatureList requiredFeatures)]
          total_processed := 1
          successful := 0
          failed := 1 } := by
  refine ⟨rfl, rfl, ?_, fun i => rfl, rfl⟩
  intro hcontra
  have h2 : predict (some clf) (some ([] : Record)) = PredictResponse.err "No input data provided" := rfl
  rw [h2] at hcontra
  injection hcontra with h3
  exact absurd h3 (by decide)

/-- Claim C2: the `i`-th outcome of a batch is exactly the loop body applied
to record `i` at index `i` — it depends on no other record, carries the
index `i`, and one record's failure cannot abort, skip, or alter any
other entry (the result list always has one entry per record). -/
theorem batch_failure_isolation (clf : Classifier) (students : List Record) (i : Nat)
    (hi : i < students.length) :
    ∃ out, predict_batch (some clf) (BatchBody.students students) = BatchResponse.ok out ∧
      out.results.length = students.length ∧
      ∃ hlen : i < out.results.length,
        out.results.get ⟨i, hlen⟩ = batchEntry clf i (students.get ⟨i, hi⟩) ∧
        entryIndex (out.results.get ⟨i, hlen⟩) = i := by
  refine ⟨_, rfl, ?_⟩
  have hL : (batchLoopAux clf 0 students).length = students.length :=
    batchLoopAux_length clf 0 students
  have hlen : i < (batchLoopAux clf 0 students).length := by rw [hL]; exact hi
  have hget := batchLoopAux_get clf students 0 i hi hlen
  rw [Nat.zero_add] at hget
  exact ⟨hL, hlen, hget, by rw [hget]; exact entryIndex_batchEntry clf i _⟩

/-- Witness for C2: a two-record batch whose second record is empty. -/
theorem batch_failure_isolation_witness :
    ∃ out, predict_batch (some wClf) (BatchBody.students [wRec, []]) = BatchResponse.ok out ∧
      out.results.length = [wRec, ([] : Record)].length ∧
      ∃ hlen : 1 < out.results.length,
        out.results.get ⟨1, hlen⟩ = batchEntry wClf 1 ([wRec, []].get ⟨1, by decide⟩) ∧
        entryIndex (out.results.get ⟨1, hlen⟩) = 1 :=
  batch_failure_isolation wClf [wRec, []] 1 (by decide)

/-- Claim C3: for every batch list of `N` records the response carries
`N` results, `total = N`, `succeeded` equal to the count of
success-tagged entries, `failed = N - succeeded`, and
`succeeded + failed = N` (so `N = 0` yields the empty result list with
both counts 0). -/
theorem batch_completeness (clf : Classifier) (students : List Record) :
    ∃ out, predict_batch (some clf) (BatchBody.students students) = BatchResponse.ok out ∧
      out.results.length = students.length ∧
      out.total_processed = students.length ∧
      out.successful = (out.results.filter (fun r => isSuccessEntry r)).length ∧
      out.failed = students.length - out.successful ∧
      out.successful + out.failed = students.length := by
  have hL : (batchLoopAux clf 0 students).length = students.length :=
    batchLoopAux_length clf 0 students
  have hC := filter_counts_partition (batchLoopAux clf 0 students)
  refine ⟨_, rfl, hL, rfl, rfl, ?_, ?_⟩
  · show ((batchLoopAux clf 0 students).filter (fun r => isErrorEntry r)).length =
      students.length - ((batchLoopAux clf 0 students).filter (fun r => isSuccessEntry r)).length
    omega
  · show ((batchLoopAux clf 0 students).filter (fun r => isSuccessEntry r)).length +
      ((batchLoopAux clf 0 students).filter (fun r => isErrorEntry r)).length = students.length
    omega

/-- Claim C4: for every batch list and every in-range index `i`, the `i`-th
result entry carries `index = i`, whatever happened at other indices. -/
theorem batch_index_fidelity (clf : Classifier) (students : List Record) (i : Nat)
    (hi : i < students.length) :
    ∃ out, predict_batch (some clf) (BatchBody.students students) = BatchResponse.ok out ∧
      ∃ hlen : i < out.results.length, entryIndex (out.results.get ⟨i, hlen⟩) = i := by
  refine ⟨_, rfl, ?_⟩
  have hlen : i < (batchLoopAux clf 0 students).length := by
    rw [batchLoopAux_length]; exact hi
  have hget := batchLoopAux_get clf students 0 i hi hlen
  rw [Nat.zero_add] at hget
  exact ⟨hlen, by rw [hget]; exact entryIndex_batchEntry clf i _⟩

/-- Witness for C4: index 0 of a batch holding one (empty, hence failing)
record still carries index 0. -/
theorem batch_index_fidelity_witness :
    ∃ out, predict_batch (some wClf) (BatchBody.students [[]]) = BatchResponse.ok out ∧
      ∃ hlen : 0 < out.results.length, entryIndex (out.results.get ⟨0, hlen⟩) = 0 :=
  batch_index_fidelity wClf [[]] 0 (by decide)

/-- A concrete record carrying 29 of the 31 required keys: "course" and
"gdp" are omitted. -/
def w5rec : Record :=
  (requiredFeatures.filter (fun k => !(k == "course" || k == "gdp"))).map
    (fun k => (k, (0 : Val)))

/-- Claim C5: when one or more required feature keys are absent, validation
fails and the error message carries the formatted list of exactly the
missing keys — the full set difference between the required-key set and
the record's keys, not just the first omission. -/
theorem missing_key_enumeration (clf : Classifier) (data : Record)
    (h : ∃ f, f ∈ requiredFeatures ∧ hasKey data f = false) :
    predictCore clf data =
      PredictResponse.err ("Missing required features: " ++ formatFeatureList (missingOf data)) ∧
    ∀ f, f ∈ missingOf data ↔ (f ∈ requiredFeatures ∧ hasKey data f = false) := by
  have hne : missingOf data ≠ [] := by
    obtain ⟨f, hf, hk⟩ := h
    intro hnil
    have hmem : f ∈ missingOf data := by
      rw [missingOf, List.mem_filter]
      exact ⟨hf, by rw [hk]; rfl⟩
    rw [hnil] at hmem
    exact absurd hmem (List.not_mem_nil f)
  constructor
  · unfold predictCore
    rw [if_neg hne]
  · intro f
    rw [missingOf, List.mem_filter]
    constructor
    · rintro ⟨h1, h2⟩
      exact ⟨h1, by revert h2; cases hasKey data f <;> simp⟩
    · rintro ⟨h1, h2⟩
      exact ⟨h1, by rw [h2]; rfl⟩

/-- Witness for C5 at a record omitting the two keys "course" and "gdp". -/
theorem missing_key_enumeration_witness :
    predictCore wClf w5rec =
      PredictResponse.err ("Missing required features: " ++ formatFeatureList (missingOf w5rec)) :=
  (missing_key_enumeration wClf w5rec ⟨"course", by decide, by decide⟩).1

/-! ### Helper lemmas about the probabilities dict -/

/-- Whenever the probabilities-dict loop completes, the dict it built is the
positional zip of the class labels with the probability vector, folded
through Python dict assignment. -/
theorem buildProbs_eq_foldl (cs : List String) :
    ∀ (ps : List Rat) (acc r : List (String × Rat)),
      buildProbs cs ps acc = Except.ok r →
      r = (cs.zip ps).foldl (fun d p => dictInsert d p.1 p.2) acc := by
  induction cs with
  | nil =>
    intro ps acc r h
    rw [buildProbs] at h
    injection h with h
    rw [← h]
    rfl
  | cons c cs ih =>
    intro ps acc r h
    cases ps with
    | nil => rw [buildProbs] at h; cases h
    | cons p ps =>
      rw [buildProbs] at h
      exact ih ps (dictInsert acc c p) r h

/-- When the class-label list is longer than the probability vector, the
probabilities-dict loop raises the Python `IndexError`. -/
theorem buildProbs_short (cs : List String) :
    ∀ (ps : List Rat) (acc : List (String × Rat)), ps.length < cs.length →
      buildProbs cs ps acc = Except.error "list index out of range" := by
  induction cs with
  | nil => intro ps acc h; simp at h
  | cons c cs ih =>
    intro ps acc h
    cases ps with
    | nil => rfl
    | cons p ps =>
      rw [buildProbs]
      exact ih ps (dictInsert acc c p) (Nat.lt_of_succ_lt_succ h)

/-- Inserting a key not already present appends it. -/
theorem dictInsert_notMem (d : List (String × Rat)) (k : String) (v : Rat)
    (h : d.any (fun p => p.1 == k) = false) :
    dictInsert d k v = d ++ [(k, v)] := by
  rw [dictInsert, h]
  rfl

/-- With pairwise-distinct class labels, none of which is already a key of
the accumulator, the dict loop appends the zip of labels and vector. -/
theorem buildProbs_nodup (cs : List String) :
    ∀ (ps : List Rat) (acc : List (String × Rat)), cs.Nodup → cs.length = ps.length →
      (∀ c ∈ cs, acc.any (fun p => p.1 == c) = false) →
      buildProbs cs ps acc = Except.ok (acc ++ cs.zip ps) := by
  induction cs with
  | nil =>
    intro ps acc _ _ _
    rw [buildProbs]
    simp
  | cons c cs ih =>
    intro ps acc hnd hlen hacc
    cases ps with
    | nil => simp at hlen
    | cons p ps =>
      rw [buildProbs]
      have hc : acc.any (fun q => q.1 == c) = false := hacc c (List.mem_cons_self c cs)
      rw [dictInsert_notMem acc c p hc]
      have hnd2 : cs.Nodup := hnd.of_cons
      have hcn : c ∉ cs := by
        intro hmem
        exact (List.nodup_cons.mp hnd).1 hmem
      have hacc2 : ∀ c2 ∈ cs, (acc ++ [(c, p)]).any (fun q => q.1 == c2) = false := by
        intro c2 hc2
        rw [List.any_append]
        have h1 : acc.any (fun q => q.1 == c2) = false := hacc c2 (List.mem_cons_of_mem c hc2)
        have h2 : ([(c, p)].any (fun q => q.1 == c2)) = false := by
          have : c ≠ c2 := fun he => hcn (he ▸ hc2)
          simp [this]
        rw [h1, h2]
        rfl
      have := ih ps (acc ++ [(c, p)]) hnd2 (Nat.succ_injective hlen) hacc2
      rw [this]
      simp

/-- The second components of a full-length zip recover the second list. -/
theorem zipSnd (cs : List String) :
    ∀ ps : List Rat, cs.length = ps.length → (cs.zip ps).map Prod.snd = ps := by
  induction cs with
  | nil =>
    intro ps hlen
    cases ps with
    | nil => rfl
    | cons p ps => simp at hlen
  | cons c cs ih =>
    intro ps hlen
    cases ps with
    | nil => simp at hlen
    | cons p ps =>
      simp only [List.zip_cons_cons, List.map_cons]
      rw [ih ps (Nat.succ_injective hlen)]

/-- A classifier whose probability vector is longer than its class list:
one class but two probabilities. -/
def mClf : Classifier :=
  { classes := ["A"]
    predictFn := fun _ => Except.ok "A"
    predictProbaFn := fun _ => Except.ok [mkRat 1 2, mkRat 1 2] }

/-- A classifier whose class list is longer than its probability vector. -/
def m2Clf : Classifier :=
  { classes := ["A", "B"]
    predictFn := fun _ => Except.ok "A"
    predictProbaFn := fun _ => Except.ok [mkRat 1 2] }

/-- Counterexample to claim C7: `mClf` returns one class label but two
probabilities — a length mismatch — yet the prediction succeeds,
returning a result built from the mismatched data instead of failing. -/
theorem class_proba_mismatch_counterexample :
    mClf.classes.length = 1 ∧
    mClf.predictProbaFn (toModelInput wRec) = Except.ok [mkRat 1 2, mkRat 1 2] ∧
    ([mkRat 1 2, mkRat 1 2] : List Rat).length = 2 ∧
    predictCore mClf wRec =
      PredictResponse.ok
        { prediction := "A"
          probabilities := [("A", mkRat 1 2)]
          risk_level := "Low"
          confidence := mkRat 1 2 } :=
  ⟨rfl, rfl, rfl, by decide⟩

/-- Claim C7 as amended: `class_probabilities` is built by zipping the class
labels with the probability vector by position; when the label list is
longer than the vector, the positional indexing fails and the prediction
errors; when the vector is at least as long, any successful result's
dict is the positional zip (the surplus probabilities are silently
ignored, contrary to the original claim — see the counterexample). -/
theorem class_proba_zip (clf : Classifier) (data : Record) (lbl : String) (proba : List Rat)
    (hm : missingOf data = [])
    (hp : clf.predictFn (toModelInput data) = Except.ok lbl)
    (hq : clf.predictProbaFn (toModelInput data) = Except.ok proba) :
    (proba.length < clf.classes.length →
      predictCore clf data =
        PredictResponse.err ("Prediction failed: " ++ "list index out of range")) ∧
    (∀ s, predictCore clf data = PredictResponse.ok s →
      s.probabilities = (clf.classes.zip proba).foldl (fun d p => dictInsert d p.1 p.2) []) := by
  constructor
  · intro hlt
    have hb := buildProbs_short clf.classes proba [] hlt
    simp [predictCore, hm, hp, hq, hb]
  · intro s hs
    obtain ⟨spred, sprobs, srisk, sconf⟩ := s
    cases hb : buildProbs clf.classes proba [] with
    | error e => simp [predictCore, hm, hp, hq, hb] at hs
    | ok probs =>
      cases hx : listMax proba with
      | error e => simp [predictCore, hm, hp, hq, hb, hx] at hs
      | ok conf =>
        simp only [predictCore, hm, if_true, hp, hq, hb, hx,
          PredictResponse.ok.injEq, PredictSuccess.mk.injEq] at hs
        obtain ⟨h1, h2, h3, h4⟩ := hs
        rw [← h2]
        exact buildProbs_eq_foldl clf.classes proba [] probs hb

/-- Witness for C7 (amended) at the concrete classifier `m2Clf`, whose class
list outruns its probability vector. -/
theorem class_proba_zip_witness :
    predictCore m2Clf wRec =
      PredictResponse.err ("Prediction failed: " ++ "list index out of range") :=
  (class_proba_zip m2Clf wRec "A" [mkRat 1 2] (by decide) rfl rfl).1 (by decide)

/-- A classifier with one class label but the probability vector
`[0.3, 0.7]` (which sums to 1): the mismatched surplus probability 0.7
feeds the confidence but not the probabilities dict. -/
def nClf : Classifier :=
  { classes := ["A"]
    predictFn := fun _ => Except.ok "A"
    predictProbaFn := fun _ => Except.ok [mkRat 3 10, mkRat 7 10] }

/-- Counterexample to claim C8: under `nClf` the prediction succeeds, the
returned probability vector sums to exactly 1, yet the confidence (0.7,
the max of the raw vector) differs from the maximum of
`class_probabilities.values()` (0.3), and the dict values sum to 0.3 —
not within 1e-6 of 1. -/
theorem confidence_counterexample :
    predictCore nClf wRec =
      PredictResponse.ok
        { prediction := "A"
          probabilities := [("A", mkRat 3 10)]
          risk_level := "Low"
          confidence := mkRat 7 10 } ∧
    listMax ([("A", mkRat 3 10)].map Prod.snd) = Except.ok (mkRat 3 10) ∧
    (mkRat 3 10 : Rat) ≠ mkRat 7 10 ∧
    ([mkRat 3 10, mkRat 7 10] : List Rat).sum = 1 ∧
    ¬ (|([("A", mkRat 3 10)].map Prod.snd).sum - 1| ≤ mkRat 1 1000000) := by
  refine ⟨by decide, rfl, by decide, ?_, ?_⟩
  · simp only [List.sum_cons, List.sum_nil]
    norm_num [Rat.mkRat_eq_divInt]
  · simp only [List.map_cons, List.map_nil, List.sum_cons, List.sum_nil]
    norm_num [Rat.mkRat_eq_divInt]
    rw [abs_of_nonneg (by norm_num : (0 : ℚ) ≤ 7 / 10)]
    norm_num

/-- Claim C8 as amended: when the classifier's class labels are pairwise
distinct and as many as the returned probabilities (the well-formedness
the original claim tacitly assumed, violated by `nClf` above), every
successful prediction's confidence is the maximum of
`class_probabilities.values()`, and the dict values sum to the vector's
sum — hence within 1e-6 of 1 whenever the vector's sum is. -/
theorem confidence_normalization (clf : Classifier) (data : Record) (lbl : String)
    (proba : List Rat) (s : PredictSuccess)
    (hnd : clf.classes.Nodup) (hlen : clf.classes.length = proba.length)
    (hp : clf.predictFn (toModelInput data) = Except.ok lbl)
    (hq : clf.predictProbaFn (toModelInput data) = Except.ok proba)
    (hs : predictCore clf data = PredictResponse.ok s) :
    listMax (s.probabilities.map Prod.snd) = Except.ok s.confidence ∧
    (|proba.sum - 1| ≤ mkRat 1 1000000 →
      |(s.probabilities.map Prod.snd).sum - 1| ≤ mkRat 1 1000000) := by
  have hm : missingOf data = [] := by
    by_contra hm
    simp [predictCore, hm] at hs
  have hb : buildProbs clf.classes proba [] = Except.ok (clf.classes.zip proba) := by
    have h0 : ∀ c ∈ clf.classes, ([] : List (String × Rat)).any (fun p => p.1 == c) = false :=
      fun c _ => rfl
    have := buildProbs_nodup clf.classes proba [] hnd hlen h0
    simpa using this
  have hsnd : (clf.classes.zip proba).map Prod.snd = proba := zipSnd clf.classes proba hlen
  obtain ⟨spred, sprobs, srisk, sconf⟩ := s
  cases hx : listMax proba with
  | error e => simp [predictCore, hm, hp, hq, hb, hx] at hs
  | ok conf =>
    simp only [predictCore, hm, if_true, hp, hq, hb, hx,
      PredictResponse.ok.injEq, PredictSuccess.mk.injEq] at hs
    obtain ⟨h1, h2, h3, h4⟩ := hs
    rw [← h2, ← h4]
    rw [hsnd]
    exact ⟨hx, fun hsum => hsum⟩

/-- Witness for C8 (amended) at the well-behaved classifier `wClf`. -/
theorem confidence_normalization_witness :
    listMax (wRes.probabilities.map Prod.snd) = Except.ok wRes.confidence :=
  (confidence_normalization wClf wRec "Dropout" [mkRat 3 4, mkRat 1 4] wRes
    (by decide) (by decide) rfl rfl (by decide)).1

/-- Modelled from the spec (§4.3 step 2, "success fields of a single
prediction" plus the added `index`): the tagging of a single-path
response with a batch index, used to compare the two code paths. -/
def addIndex (i : Nat) : PredictResponse → BatchEntry
  | PredictResponse.ok s => BatchEntry.success i s
  | PredictResponse.err m => BatchEntry.failure i m

/-- Counterexample to claim C9: on the empty record, the single path
answers the generic "No input data provided" error, while the batch loop
body answers the missing-key enumeration — the two duplicated code paths
disagree on the error message. -/
theorem single_batch_divergence :
    addIndex 0 (predict (some wClf) (some ([] : Record))) =
      BatchEntry.failure 0 "No input data provided" ∧
    batchEntry wClf 0 [] =
      BatchEntry.failure 0 ("Missing required features: " ++ formatFeatureList requiredFeatures) ∧
    addIndex 0 (predict (some wClf) (some ([] : Record))) ≠ batchEntry wClf 0 [] :=
  ⟨rfl, rfl, by decide⟩

/-- Claim C9 as amended: for every record with at least one key (the
counterexample above forces the non-empty restriction), the batch loop
body produces exactly the single prediction path's outcome for that
record, tagged with the batch index — same prediction, probabilities,
risk level, confidence and status, and on failure the same message. -/
theorem single_batch_equivalence (clf : Classifier) (i : Nat) (r : Record) (h : r ≠ []) :
    batchEntry clf i r = addIndex i (predict (some clf) (some r)) := by
  have h2 : predict (some clf) (some r) = predictCore clf r := by
    simp [predict, h]
  rw [h2]
  by_cases hm : missingOf r = []
  · cases hp : clf.predictFn (toModelInput r) with
    | error e => simp [batchEntry, predictCore, addIndex, hm, hp]
    | ok pred0 =>
      cases hq : clf.predictProbaFn (toModelInput r) with
      | error e => simp [batchEntry, predictCore, addIndex, hm, hp, hq]
      | ok proba =>
        cases hb : buildProbs clf.classes proba [] with
        | error e => simp [batchEntry, predictCore, addIndex, hm, hp, hq, hb]
        | ok probs =>
          cases hx : listMax proba with
          | error e => simp [batchEntry, predictCore, addIndex, hm, hp, hq, hb, hx]
          | ok conf => simp [batchEntry, predictCore, addIndex, hm, hp, hq, hb, hx]
  · simp [batchEntry, predictCore, addIndex, hm]

/-- Witness for C9 (amended) at the full 31-key record `wRec`. -/
theorem single_batch_equivalence_witness :
    batchEntry wClf 5 wRec = addIndex 5 (predict (some wClf) (some wRec)) :=
  single_batch_equivalence wClf 5 wRec (by decide)

end DropApp
